import Mathlib

/-!
Verification development for the DevReplicator tool.

The Python sources are shallowly embedded: pure string manipulation is
translated to functions on `String` / `List Char`; filesystem inspection is
modelled by an abstract snapshot (`FS`) mapping relative paths to their kind;
code that can raise an uncaught exception is modelled in `Except`.
-/

namespace DevReplicator

/-! ## Character classes

`re.sub(r"[^a-zA-Z0-9._-]", "-", name)` uses the explicit ASCII class below.
`str.lower()` is only ever applied to the output of that substitution, so on
its actual domain it coincides with per-character ASCII lowercasing
(`Char.toLower`). -/

def ALLOWED_CHARS : List Char :=
  ['A','B','C','D','E','F','G','H','I','J','K','L','M',
   'N','O','P','Q','R','S','T','U','V','W','X','Y','Z',
   'a','b','c','d','e','f','g','h','i','j','k','l','m',
   'n','o','p','q','r','s','t','u','v','w','x','y','z',
   '0','1','2','3','4','5','6','7','8','9','.','_','-']

def TAG_CHARS : List Char :=
  ['a','b','c','d','e','f','g','h','i','j','k','l','m',
   'n','o','p','q','r','s','t','u','v','w','x','y','z',
   '0','1','2','3','4','5','6','7','8','9','.','_','-']

def allowedChar (c : Char) : Bool := decide (c ∈ ALLOWED_CHARS)

def tagChar (c : Char) : Bool := decide (c ∈ TAG_CHARS)

/-! ## Python string primitives -/

/-- Python `str.rstrip(chars)`: drop trailing characters belonging to the set. -/
def dropTrailing {α : Type} (p : α → Bool) (cs : List α) : List α :=
  ((cs.reverse).dropWhile p).reverse

def pyRstrip (cs : List Char) (chars : List Char) : List Char :=
  dropTrailing (fun c => decide (c ∈ chars)) cs

def dashP (c : Char) : Bool := decide (c = '-')

/-- Python `str.strip("-")`: drop leading and trailing dashes. -/
def pyStripDashes (cs : List Char) : List Char :=
  dropTrailing dashP (cs.dropWhile dashP)

/-- Whether `sep` occurs as a contiguous sublist of `s`. -/
def hasOccur (sep : List Char) : List Char → Bool
  | [] => sep.isPrefixOf []
  | c :: r => sep.isPrefixOf (c :: r) || hasOccur sep r

/-- Last element of Python `s.split(sep)` for a nonempty separator without
self-overlap (both separators used here, `"github.com/"` and `"/"`, have no
proper border): the suffix after the rightmost occurrence of `sep`. -/
def lastField (sep : List Char) : List Char → List Char
  | [] => []
  | c :: r =>
    if hasOccur sep r then lastField sep r
    else if sep.isPrefixOf (c :: r) then (c :: r).drop sep.length
    else c :: r

/-! ## replicator.py `_slugify` and executor.py `_extract_repo_name` -/

/-- `re.sub(r"[^a-zA-Z0-9._-]", "-", name)`. -/
def subChars (cs : List Char) : List Char :=
  cs.map fun c => if allowedChar c then c else '-'

/-- `.lower()` (applied after `subChars`, hence on ASCII input). -/
def lowerChars (cs : List Char) : List Char :=
  cs.map Char.toLower

/-- The `re.sub(...).lower().strip("-")` chain of `_slugify`. -/
def slugCore (cs : List Char) : List Char :=
  pyStripDashes (lowerChars (subChars cs))

def GITHUB_SEP : List Char := "github.com/".data

/-- The first line of `_slugify`:
`url.rstrip("/").rstrip(".git").split("github.com/")[-1]`. -/
def urlPath (url : String) : List Char :=
  lastField GITHUB_SEP (pyRstrip (pyRstrip url.data ['/']) ['.', 'g', 'i', 't'])

/-- replicator.py `_slugify`:
`name = url.rstrip("/").rstrip(".git").split("github.com/")[-1]`,
`name = re.sub(r"[^a-zA-Z0-9._-]", "-", name).lower().strip("-")`,
`return f"devreplicator-{name}"[:128]`. -/
def _slugify (url : String) : String :=
  String.mk (("devreplicator-".data ++ slugCore (urlPath url)).take 128)

/-- executor.py `_extract_repo_name`:
`url = url.rstrip("/").rstrip(".git"); return url.split("/")[-1] or "repo"`. -/
def _extract_repo_name (url : String) : String :=
  let u := pyRstrip (pyRstrip url.data ['/']) ['.', 'g', 'i', 't']
  let last := lastField ['/'] u
  if last = [] then "repo" else String.mk last

/-! ## executor.py `clone_repository` -/

/-- Environment visible to `clone_repository`: whether `git` is on PATH,
the temp directory, whether the destination already exists, and the exit
status the `git clone` subprocess would return. -/
structure CloneEnv where
  gitOnPath : Bool
  tmpdir : String
  destAlreadyExists : Bool
  cloneExit : Int

/-- Result of running `clone_repository`: either the process terminated via
`sys.exit code`, or the function returned the destination path. -/
inductive RunResult where
  | exited (code : Nat)
  | ok (dest : String)
deriving DecidableEq

/-- executor.py `clone_repository`, returning the outcome together with the
log messages emitted (in order). -/
def clone_repository (env : CloneEnv) (url : String) (dest? : Option String) :
    RunResult × List String :=
  if env.gitOnPath = false then
    (.exited 1, ["git is not installed or not found in PATH."])
  else
    let dest :=
      match dest? with
      | some d => d
      | none => env.tmpdir ++ "/devreplicator_" ++ _extract_repo_name url
    let logs0 :=
      if env.destAlreadyExists then
        ["Destination already exists — removing: " ++ dest]
      else []
    let logs1 := logs0 ++ ["Cloning " ++ url ++ " → " ++ dest]
    if env.cloneExit ≠ 0 then
      (.exited 1, logs1 ++ ["git clone failed. Check the URL and your network connection."])
    else
      (.ok dest, logs1 ++ ["Repository cloned: " ++ dest])

/-! ## detectors.py — filesystem model

A detection run looks at one snapshot of the cloned tree:
`kind p` is what `(root / p).exists()` sees for the relative path `p`
(`Path.exists` is true for files and directories alike);
`pkgAttempt` is what reading and JSON-parsing `package.json` would yield,
distinguishing the exception classes of `_find_node_entry`;
`pyFiles` is `list(root.rglob("*.py"))` with each file's readability and lines. -/

inductive FKind where
  | file | dir | absent
deriving DecidableEq

/-- The value found at `"main"` in a parsed `package.json` object, as seen by
`main = data.get("main")` and the guard `if main and (root / main).exists()`:
`absent` = no `"main"` key, or its value is JSON `null` (`data.get` returns
`None`, falsy);
`str s` = a JSON string (truthy iff non-empty; `(root / s).exists()` is total
for strings — `Path.exists` returns `False` instead of raising on
non-statable names);
`truthyNonStr` = a truthy non-string JSON value (non-zero number, `true`,
non-empty array or object): `root / main` raises `TypeError`, which is not in
the `except` clause;
`falsyNonStr` = a falsy non-string JSON value (`0`, `false`, `[]`, `{}`): the
guard short-circuits and the search falls back. -/
inductive MainField where
  | absent
  | str (s : String)
  | truthyNonStr
  | falsyNonStr
deriving DecidableEq

/-- Outcome of `json.loads(pkg.read_text())` followed by `data.get("main")`:
`unreadable` = `read_text` itself raises (`OSError`, `UnicodeDecodeError`) —
not in the `except (json.JSONDecodeError, KeyError)` clause;
`malformed` = `json.loads` raises `JSONDecodeError` — caught;
`nonObject` = a valid JSON document that is not an object (array, string,
number, boolean or null): `data.get` raises `AttributeError` — not caught;
`object mainField` = a JSON object with the described `"main"` entry. -/
inductive PkgAttempt where
  | unreadable
  | malformed
  | nonObject
  | object (mainField : MainField)
deriving DecidableEq

/-- Exceptions that can escape `_find_node_entry` (none of them is matched by
`except (json.JSONDecodeError, KeyError)`). -/
inductive PyError where
  | osError
  | attributeError
  | typeError
deriving DecidableEq

/-- Whether the `package.json` read/parse/lookup attempt raises an exception
that escapes the `except` clause of `_find_node_entry`. -/
def PkgAttempt.raises : PkgAttempt → Bool
  | .unreadable => true
  | .nonObject => true
  | .object .truthyNonStr => true
  | _ => false

/-- A Python source file as seen by `_scan_python_imports`: `unreadable`
means `read_text` raises `OSError` (caught, file skipped); note
`errors="ignore"` makes decoding itself total. -/
inductive PyFile where
  | unreadable
  | readable (lines : List String)
deriving DecidableEq

structure FS where
  kind : String → FKind
  pkgAttempt : PkgAttempt
  pyFiles : List PyFile

/-- `(root / p).exists()`. -/
def FS.fexists (fs : FS) (p : String) : Bool := decide (fs.kind p ≠ FKind.absent)

/-! ## detectors.py — data model and entry-point search -/

inductive ProjectType where
  | python | poetry | node | unknown
deriving DecidableEq

structure ProjectInfo where
  project_type : ProjectType
  entry_point : Option String
  dep_file : Option String
  base_image : Option String
  start_command : Option String
  scanned_imports : List String
deriving DecidableEq

def PYTHON_ENTRY_CANDIDATES : List String :=
  ["app.py", "main.py", "server.py", "run.py", "manage.py", "cli.py"]

def NODE_ENTRY_CANDIDATES : List String :=
  ["index.js", "server.js", "app.js", "main.js", "src/index.js"]

/-- detectors.py `_find_python_entry`: first candidate whose path exists. -/
def _find_python_entry (fs : FS) : Option String :=
  PYTHON_ENTRY_CANDIDATES.find? fs.fexists

/-- The candidate-list loop of `_find_node_entry`. -/
def nodeFallbackEntry (fs : FS) : Option String :=
  NODE_ENTRY_CANDIDATES.find? fs.fexists

/-- detectors.py `_find_node_entry`. The `try` block reads `package.json`,
parses it, and uses a truthy `main` whose path exists; only
`json.JSONDecodeError` and `KeyError` are caught, so a read failure
(`OSError`/`UnicodeDecodeError`), a `data.get` on a non-object document
(`AttributeError`) and a `root / main` on a truthy non-string
(`TypeError`) all propagate (`Except.error`). For a string-valued `main`,
`if main and (root / main).exists()` requires it to be non-empty. -/
def _find_node_entry (fs : FS) : Except PyError (Option String) :=
  if fs.fexists "package.json" then
    match fs.pkgAttempt with
    | .unreadable => .error .osError
    | .malformed => .ok (nodeFallbackEntry fs)
    | .nonObject => .error .attributeError
    | .object .absent => .ok (nodeFallbackEntry fs)
    | .object .falsyNonStr => .ok (nodeFallbackEntry fs)
    | .object .truthyNonStr => .error .typeError
    | .object (.str m) =>
      if m ≠ "" ∧ fs.fexists m = true then .ok (some m)
      else .ok (nodeFallbackEntry fs)
  else .ok (nodeFallbackEntry fs)

/-! ## detectors.py — import scan -/

def stdlib_prefixes : List String :=
  ["os", "sys", "re", "io", "abc", "ast", "csv", "json", "math",
   "time", "enum", "uuid", "copy", "glob", "gzip", "hmac", "html",
   "http", "logging", "pathlib", "shutil", "socket", "struct",
   "string", "threading", "traceback", "typing", "unittest",
   "urllib", "xml", "zipfile", "subprocess", "collections",
   "contextlib", "dataclasses", "datetime", "functools", "hashlib",
   "inspect", "itertools", "multiprocessing", "operator", "random",
   "signal", "stat", "tempfile", "textwrap", "warnings"]

/-- `\s` of the `re` module restricted to ASCII whitespace (the import
keywords and identifier characters matched around it are ASCII-only). -/
def pyIsSpace (c : Char) : Bool := decide (c ∈ [' ', '\t', '\n', '\x0b', '\x0c', '\r'])

/-- `[a-zA-Z_]` (`Char.isAlpha` is exactly ASCII `[a-zA-Z]`). -/
def isIdentStart (c : Char) : Bool := c.isAlpha || decide (c = '_')

/-- `[a-zA-Z0-9_]`. -/
def isIdentChar (c : Char) : Bool := c.isAlphanum || decide (c = '_')

/-- Drop a literal from the front, or fail. -/
def dropLit : List Char → List Char → Option (List Char)
  | [], cs => some cs
  | _ :: _, [] => none
  | l :: ls, c :: cs => if c = l then dropLit ls cs else none

/-- The `(?:import|from)` alternation: the two literals differ at their first
character, so the regex backtracking order is immaterial. -/
def afterKeyword (cs : List Char) : Option (List Char) :=
  match dropLit "import".data cs with
  | some r => some r
  | none => dropLit "from".data cs

/-- `[a-zA-Z_][a-zA-Z0-9_]*`: the greedily-captured identifier token. -/
def tokenIdent : List Char → Option String
  | [] => none
  | d :: rest2 =>
    if isIdentStart d then some (String.mk (d :: rest2.takeWhile isIdentChar))
    else none

/-- `\s+` then the capture: at least one whitespace, then the token. -/
def tokenAfter : List Char → Option String
  | [] => none
  | c :: rest =>
    if pyIsSpace c then tokenIdent (rest.dropWhile pyIsSpace)
    else none

/-- `import_re.match(line)` for
`import_re = re.compile(r"^\s*(?:import|from)\s+([a-zA-Z_][a-zA-Z0-9_]*)")`,
returning the captured group. -/
def matchImportLine (line : String) : Option String :=
  (afterKeyword (line.data.dropWhile pyIsSpace)).bind tokenAfter

/-- The set-insertion step on a (possibly absent) captured token: a token not
on the standard-library denylist is added to the set (modelled as a
duplicate-free list in insertion order). -/
def addToken (acc : List String) : Option String → List String
  | none => acc
  | some pkg =>
    if pkg ∈ stdlib_prefixes then acc
    else if pkg ∈ acc then acc
    else acc ++ [pkg]

/-- Body of the per-line loop. -/
def addImport (acc : List String) (line : String) : List String :=
  addToken acc (matchImportLine line)

/-- Per-file loop: an `OSError` on `read_text` skips the file. -/
def scanFileInto (acc : List String) : PyFile → List String
  | .unreadable => acc
  | .readable lines => lines.foldl addImport acc

/-- detectors.py `_scan_python_imports`. -/
def _scan_python_imports (files : List PyFile) : List String :=
  files.foldl scanFileInto []

/-! ## detectors.py `detect_project` -/

def pipInfo (entry : Option String) : ProjectInfo :=
  { project_type := .python, entry_point := entry,
    dep_file := some "requirements.txt", base_image := some "python:3.11-slim",
    start_command := entry.map (fun e => "python " ++ e), scanned_imports := [] }

def poetryInfo (entry : Option String) : ProjectInfo :=
  { project_type := .poetry, entry_point := entry,
    dep_file := some "pyproject.toml", base_image := some "python:3.11-slim",
    start_command := entry.map (fun e => "python " ++ e), scanned_imports := [] }

def nodeInfo (entry : Option String) : ProjectInfo :=
  { project_type := .node, entry_point := entry,
    dep_file := some "package.json", base_image := some "node:18-slim",
    start_command := some "npm start", scanned_imports := [] }

def fallbackInfo (entry : Option String) (imports : List String) : ProjectInfo :=
  { project_type := .python, entry_point := entry,
    dep_file := none, base_image := some "python:3.11-slim",
    start_command := entry.map (fun e => "python " ++ e),
    scanned_imports := imports }

def unknownInfo : ProjectInfo :=
  { project_type := .unknown, entry_point := none, dep_file := none,
    base_image := none, start_command := none, scanned_imports := [] }

/-- detectors.py `detect_project`: the cascading manifest checks, the Python
source fallback, and the unknown fallback. The node branch propagates an
uncaught exception from `_find_node_entry`. -/
def detect_project (fs : FS) : Except PyError ProjectInfo :=
  if fs.fexists "requirements.txt" then
    .ok (pipInfo (_find_python_entry fs))
  else if fs.fexists "pyproject.toml" then
    .ok (poetryInfo (_find_python_entry fs))
  else if fs.fexists "package.json" then
    (_find_node_entry fs).map nodeInfo
  else if fs.pyFiles ≠ [] then
    .ok (fallbackInfo (_find_python_entry fs) (_scan_python_imports fs.pyFiles))
  else
    .ok unknownInfo

/-! ## Helper lemmas: character classes -/

theorem tagChar_toLower_of_allowed (c : Char) (h : allowedChar c = true) :
    tagChar (Char.toLower c) = true := by
  have h2 : c ∈ ALLOWED_CHARS := of_decide_eq_true h
  fin_cases h2 <;> decide

theorem toLower_fix_of_tagChar (c : Char) (h : tagChar c = true) :
    Char.toLower c = c := by
  have h2 : c ∈ TAG_CHARS := of_decide_eq_true h
  fin_cases h2 <;> decide

theorem allowedChar_of_tagChar (c : Char) (h : tagChar c = true) :
    allowedChar c = true := by
  have h2 : c ∈ TAG_CHARS := of_decide_eq_true h
  fin_cases h2 <;> decide

theorem allowedChar_mem_subChars {c : Char} {cs : List Char}
    (h : c ∈ subChars cs) : allowedChar c = true := by
  rcases List.mem_map.mp h with ⟨a, _, rfl⟩
  by_cases ha : allowedChar a = true
  · simp [ha]
  · simp only [Bool.not_eq_true] at ha
    simp [ha]
    decide

/-! ## Helper lemmas: list plumbing -/

theorem map_fix_of_forall {α : Type} (f : α → α) :
    ∀ (l : List α), (∀ x ∈ l, f x = x) → l.map f = l
  | [], _ => rfl
  | a :: t, h => by
    simp only [List.map_cons]
    rw [h a (List.mem_cons_self a t), map_fix_of_forall f t
      (fun x hx => h x (List.mem_cons_of_mem a hx))]

theorem dropWhile_dropWhile {α : Type} (p : α → Bool) (l : List α) :
    (l.dropWhile p).dropWhile p = l.dropWhile p := by
  induction l with
  | nil => rfl
  | cons a t ih =>
    by_cases h : p a = true
    · have e : List.dropWhile p (a :: t) = List.dropWhile p t := by
        simp [List.dropWhile_cons, h]
      rw [e]
      exact ih
    · simp only [Bool.not_eq_true] at h
      have e : List.dropWhile p (a :: t) = a :: t := by
        simp [List.dropWhile_cons, h]
      rw [e]
      exact e

theorem dropTrailing_isPrefix {α : Type} (p : α → Bool) (l : List α) :
    (dropTrailing p l : List α) <+: l := by
  have hs : l.reverse.dropWhile p <:+ l.reverse := List.dropWhile_suffix p
  have h2 := @List.reverse_suffix α ((l.reverse.dropWhile p).reverse) l
  rw [List.reverse_reverse] at h2
  exact h2.mp hs

theorem dropWhile_eq_self_of_isPrefix {α : Type} (p : α → Bool) {t m : List α}
    (hpre : t <+: m) (hm : m.dropWhile p = m) : t.dropWhile p = t := by
  cases t with
  | nil => rfl
  | cons c t2 =>
    obtain ⟨r, rfl⟩ := hpre
    have hc : p c = false := by
      by_contra hcontra
      simp only [Bool.not_eq_false] at hcontra
      have hle : ((c :: t2 ++ r).dropWhile p).length ≤ (t2 ++ r).length := by
        rw [List.cons_append, List.dropWhile_cons, if_pos hcontra]
        exact (List.dropWhile_sublist p).length_le
      simp only [hm] at hle
      simp at hle
    simp [List.dropWhile_cons, hc]

theorem dropTrailing_idem {α : Type} (p : α → Bool) (l : List α) :
    dropTrailing p (dropTrailing p l) = dropTrailing p l := by
  simp [dropTrailing, List.reverse_reverse, dropWhile_dropWhile]

theorem pyStripDashes_idem (l : List Char) :
    pyStripDashes (pyStripDashes l) = pyStripDashes l := by
  unfold pyStripDashes
  set m := l.dropWhile dashP with hmdef
  have hm : m.dropWhile dashP = m := dropWhile_dropWhile dashP l
  have hpre : (dropTrailing dashP m : List Char) <+: m := dropTrailing_isPrefix dashP m
  rw [dropWhile_eq_self_of_isPrefix dashP hpre hm, dropTrailing_idem]

theorem mem_of_mem_dropTrailing {α : Type} {p : α → Bool} {x : α} {l : List α}
    (h : x ∈ dropTrailing p l) : x ∈ l :=
  (dropTrailing_isPrefix p l).sublist.subset h

theorem mem_of_mem_pyStripDashes {x : Char} {l : List Char}
    (h : x ∈ pyStripDashes l) : x ∈ l :=
  (List.dropWhile_sublist dashP).subset (mem_of_mem_dropTrailing h)

/-! ## Helper lemmas: the normalization core of `_slugify` -/

theorem tagChar_mem_slugCore {c : Char} {cs : List Char}
    (h : c ∈ slugCore cs) : tagChar c = true := by
  have h1 : c ∈ lowerChars (subChars cs) := mem_of_mem_pyStripDashes h
  rcases List.mem_map.mp h1 with ⟨a, ha, rfl⟩
  exact tagChar_toLower_of_allowed a (allowedChar_mem_subChars ha)

theorem subChars_fix_of_tag {l : List Char} (h : ∀ c ∈ l, tagChar c = true) :
    subChars l = l :=
  map_fix_of_forall _ l fun c hc => by
    rw [if_pos (allowedChar_of_tagChar c (h c hc))]

theorem lowerChars_fix_of_tag {l : List Char} (h : ∀ c ∈ l, tagChar c = true) :
    lowerChars l = l :=
  map_fix_of_forall _ l fun c hc => toLower_fix_of_tagChar c (h c hc)

/-! ## Claim theorems: image-tag derivation (C6, C7, C10) -/

/-- Claim C6 counterexample: image-tag derivation is NOT idempotent. At the
concrete URL below, re-slugifying the derived tag prepends the namespace
again, so applying `_slugify` to its own output changes it. -/
theorem C6_idempotent_counterexample :
    _slugify (_slugify "https://github.com/user/repo") ≠
      _slugify "https://github.com/user/repo" := by decide

/-- Claim C6 (amended): the character-normalization core of the derivation —
replace every character outside `[a-zA-Z0-9._-]` with `-`, lowercase, strip
leading/trailing `-` — is idempotent; the full derivation is not, because it
unconditionally re-prepends the `devreplicator-` namespace (and re-strips
trailing `/`, `.`, `g`, `i`, `t`). -/
theorem C6_slug_core_idempotent (cs : List Char) :
    slugCore (slugCore cs) = slugCore cs := by
  have htag : ∀ c ∈ slugCore cs, tagChar c = true := fun c hc => tagChar_mem_slugCore hc
  show pyStripDashes (lowerChars (subChars (slugCore cs))) = slugCore cs
  rw [subChars_fix_of_tag htag, lowerChars_fix_of_tag htag]
  show pyStripDashes (pyStripDashes (lowerChars (subChars cs))) = slugCore cs
  exact pyStripDashes_idem _

/-- Claim C7 counterexample: the derived tag CAN end with `-`: when the
normalized repository name is empty the tag is exactly the namefix
`devreplicator-`, whose last character is `-`. -/
theorem C7_trailing_dash_counterexample :
    _slugify "-" = "devreplicator-" ∧
    (_slugify "-").data.getLast? = some '-' := by decide

/-- Claim C7 (amended): for every URL the derived image tag is at most 128
characters, begins with the namespace `devreplicator-`, contains only
characters from `[a-z0-9._-]`, and begins with `d` (hence never begins with
`-`); it may however end with `-` (see the counterexample). -/
theorem C7_slug_shape (url : String) :
    (_slugify url).data.length ≤ 128 ∧
    (_slugify url).data.take 14 = "devreplicator-".data ∧
    (_slugify url).data.all tagChar = true ∧
    (_slugify url).data.head? = some 'd' := by
  refine ⟨?_, ?_, ?_, ?_⟩
  · show (("devreplicator-".data ++ slugCore (urlPath url)).take 128).length ≤ 128
    simp [List.length_take]
  · show (("devreplicator-".data ++ slugCore (urlPath url)).take 128).take 14 =
      "devreplicator-".data
    rw [List.take_take]
    rw [show ((14 : ℕ) ⊓ 128) = "devreplicator-".data.length from rfl]
    exact List.take_left _ _
  · show (("devreplicator-".data ++ slugCore (urlPath url)).take 128).all tagChar = true
    rw [List.all_eq_true]
    intro c hc
    rcases List.mem_append.mp (List.take_subset _ _ hc) with hpre | hname
    · have hall : "devreplicator-".data.all tagChar = true := by decide
      exact List.all_eq_true.mp hall c hpre
    · exact tagChar_mem_slugCore hname
  · show (("devreplicator-".data ++ slugCore (urlPath url)).take 128).head? = some 'd'
    rw [show "devreplicator-".data ++ slugCore (urlPath url) =
      'd' :: ("evreplicator-".data ++ slugCore (urlPath url)) from rfl]
    rw [show (128 : ℕ) = 127 + 1 from rfl, List.take_succ_cons, List.head?_cons]

/-- Claim C10: `url.rstrip("/").rstrip(".git")` strips every trailing
character from the set `{.,g,i,t}` — not only a literal `.git` suffix — so
the repository `blog` loses its trailing `g` in both the repo name and the
slug, while a genuine `.git` suffix is also removed. -/
theorem C10_git_chars_strip :
    _extract_repo_name "https://github.com/user/blog" = "blo" ∧
    _slugify "https://github.com/user/blog" = "devreplicator-user-blo" ∧
    _extract_repo_name "https://github.com/user/repo.git" = "repo" ∧
    _slugify "https://github.com/user/repo.git" = "devreplicator-user-repo" := by
  decide

/-! ## Claim theorems: clone failure handling (C9) -/

/-- Claim C9: when `git` is available and the `git clone` subprocess exits
non-zero, `clone_repository` terminates the run via `sys.exit(1)` after
logging a diagnostic; the destination path is returned only when the clone
exited with status zero. -/
theorem C9_clone_exit (env : CloneEnv) (url : String) (dest? : Option String) :
    (env.gitOnPath = true → env.cloneExit ≠ 0 →
      (clone_repository env url dest?).1 = RunResult.exited 1 ∧
      "git clone failed. Check the URL and your network connection." ∈
        (clone_repository env url dest?).2) ∧
    (∀ d, (clone_repository env url dest?).1 = RunResult.ok d →
      env.cloneExit = 0) := by
  constructor
  · intro hg hc
    constructor
    · simp [clone_repository, hg, hc]
    · simp [clone_repository, hg, hc]
  · intro d hd
    by_contra hne
    rcases hg : env.gitOnPath with _ | _
    · simp [clone_repository, hg] at hd
    · simp [clone_repository, hg, hne] at hd

def cloneEnvFail : CloneEnv :=
  { gitOnPath := true, tmpdir := "/tmp", destAlreadyExists := false,
    cloneExit := 1 }

/-- Witness for C9 at a concrete environment whose clone exits with 1. -/
theorem C9_clone_exit_witness :
    (clone_repository cloneEnvFail "https://github.com/u/r" (some "/tmp/d")).1 =
      RunResult.exited 1 ∧
    "git clone failed. Check the URL and your network connection." ∈
      (clone_repository cloneEnvFail "https://github.com/u/r" (some "/tmp/d")).2 :=
  (C9_clone_exit cloneEnvFail "https://github.com/u/r" (some "/tmp/d")).1 rfl (by decide)

/-! ## Helper lemmas: import scan -/

/-- Shape of every token returned by the capture group
`([a-zA-Z_][a-zA-Z0-9_]*)`. -/
def isIdentToken (s : String) : Bool :=
  match s.data with
  | [] => false
  | c :: rest => isIdentStart c && rest.all isIdentChar

theorem tokenIdent_token {r : List Char} {s : String}
    (h : tokenIdent r = some s) : isIdentToken s = true := by
  rcases r with _ | ⟨d, rest2⟩
  · exact Option.noConfusion h
  · simp only [tokenIdent] at h
    by_cases hd : isIdentStart d = true
    · rw [if_pos hd] at h
      injection h with h2
      subst h2
      unfold isIdentToken
      simp only [hd, Bool.true_and]
      rw [List.all_eq_true]
      intro x hx
      exact List.mem_takeWhile_imp hx
    · rw [if_neg hd] at h
      exact Option.noConfusion h

theorem tokenAfter_token {r : List Char} {s : String}
    (h : tokenAfter r = some s) : isIdentToken s = true := by
  rcases r with _ | ⟨c, rest⟩
  · exact Option.noConfusion h
  · simp only [tokenAfter] at h
    by_cases hsp : pyIsSpace c = true
    · rw [if_pos hsp] at h
      exact tokenIdent_token h
    · rw [if_neg hsp] at h
      exact Option.noConfusion h

theorem matchImportLine_token {line : String} {s : String}
    (h : matchImportLine line = some s) : isIdentToken s = true := by
  unfold matchImportLine at h
  rcases Option.bind_eq_some.mp h with ⟨r, _, hr⟩
  exact tokenAfter_token hr

/-- Invariant maintained by the scan accumulator. -/
def ScanInv (acc : List String) : Prop :=
  (∀ x ∈ acc, isIdentToken x = true ∧ x ∉ stdlib_prefixes) ∧ acc.Nodup

theorem addImport_inv {acc : List String} (line : String) (h : ScanInv acc) :
    ScanInv (addImport acc line) := by
  unfold addImport
  rcases hm : matchImportLine line with _ | pkg
  · exact h
  · simp only [addToken]
    by_cases h1 : pkg ∈ stdlib_prefixes
    · rw [if_pos h1]
      exact h
    · rw [if_neg h1]
      by_cases h2 : pkg ∈ acc
      · rw [if_pos h2]
        exact h
      · rw [if_neg h2]
        constructor
        · intro x hx
          rcases List.mem_append.mp hx with hxa | hxp
          · exact h.1 x hxa
          · rw [List.mem_singleton] at hxp
            subst hxp
            exact ⟨matchImportLine_token hm, h1⟩
        · rw [List.nodup_append]
          exact ⟨h.2, List.nodup_singleton pkg,
            fun x hxa hxp => h2 (by rwa [List.mem_singleton.mp hxp] at hxa)⟩

theorem foldl_inv {α β : Type} {P : α → Prop} {f : α → β → α}
    (hf : ∀ (a : α) (b : β), P a → P (f a b)) :
    ∀ (l : List β) (a : α), P a → P (l.foldl f a)
  | [], _, h => h
  | b :: t, a, h => foldl_inv hf t (f a b) (hf a b h)

theorem scanFileInto_inv {acc : List String} (f : PyFile) (h : ScanInv acc) :
    ScanInv (scanFileInto acc f) := by
  rcases f with _ | lines
  · exact h
  · exact foldl_inv (fun a b ha => addImport_inv b ha) lines acc h

/-! ## Claim theorems: import scan (C5) -/

/-- Claim C5: every element of the import-scan result is a top-level module
token matching `[a-zA-Z_][a-zA-Z0-9_]*` (so nothing starting with a dot can
appear), no element is on the standard-library denylist, and the result is
duplicate-free (repeated imports across files collapse to one entry). -/
theorem C5_import_scan (files : List PyFile) :
    (∀ x ∈ _scan_python_imports files,
      isIdentToken x = true ∧ x ∉ stdlib_prefixes) ∧
    (_scan_python_imports files).Nodup := by
  have h : ScanInv (_scan_python_imports files) :=
    foldl_inv (fun a b ha => scanFileInto_inv b ha) files []
      ⟨fun x hx => absurd hx (List.not_mem_nil x), List.nodup_nil⟩
  exact ⟨h.1, h.2⟩

def pyFilesExample : List PyFile :=
  [PyFile.readable ["import numpy", "from flask import app", "import os"],
   PyFile.readable ["import numpy", "  import requests"]]

/-- Witness for C5 on a concrete file list: `numpy` is reported once even
though it is imported twice. -/
theorem C5_import_scan_witness :
    (isIdentToken "numpy" = true ∧ "numpy" ∉ stdlib_prefixes) ∧
    (_scan_python_imports pyFilesExample).Nodup :=
  ⟨(C5_import_scan pyFilesExample).1 "numpy" (by decide),
   (C5_import_scan pyFilesExample).2⟩

/-! ## Claim theorems: detection order (C1) -/

/-- Claim C1: the detection rules are evaluated in the fixed order pip,
poetry, node, python-source fallback, unknown, and the first matching rule
alone determines the result. In particular whenever `requirements.txt`
exists — regardless of any other manifest — the result is the python variant
`pipInfo` with `dep_file = requirements.txt`. -/
theorem C1_detection_order (fs : FS) :
    (fs.fexists "requirements.txt" = true →
      detect_project fs = Except.ok (pipInfo (_find_python_entry fs))) ∧
    (fs.fexists "requirements.txt" = false → fs.fexists "pyproject.toml" = true →
      detect_project fs = Except.ok (poetryInfo (_find_python_entry fs))) ∧
    (fs.fexists "requirements.txt" = false → fs.fexists "pyproject.toml" = false →
      fs.fexists "package.json" = true →
      detect_project fs = (_find_node_entry fs).map nodeInfo) ∧
    (fs.fexists "requirements.txt" = false → fs.fexists "pyproject.toml" = false →
      fs.fexists "package.json" = false → fs.pyFiles ≠ [] →
      detect_project fs = Except.ok
        (fallbackInfo (_find_python_entry fs) (_scan_python_imports fs.pyFiles))) ∧
    (fs.fexists "requirements.txt" = false → fs.fexists "pyproject.toml" = false →
      fs.fexists "package.json" = false → fs.pyFiles = [] →
      detect_project fs = Except.ok unknownInfo) := by
  refine ⟨?_, ?_, ?_, ?_, ?_⟩ <;> intros <;> simp [detect_project, *]

/-- A directory carrying both a pip manifest and a Poetry manifest. -/
def fsBoth : FS :=
  { kind := fun s =>
      if s = "requirements.txt" then FKind.file
      else if s = "pyproject.toml" then FKind.file
      else FKind.absent,
    pkgAttempt := .object .absent, pyFiles := [] }

/-- Witness for C1: with both manifests present the pip branch wins. -/
theorem C1_detection_order_witness :
    fsBoth.fexists "pyproject.toml" = true ∧
    detect_project fsBoth = Except.ok (pipInfo (_find_python_entry fsBoth)) :=
  ⟨rfl, (C1_detection_order fsBoth).1 rfl⟩

/-! ## Claim theorems: totality of detection (C2) -/

/-- A directory whose only manifest is a `package.json` that exists but whose
`read_text` raises (for example a permission error or invalid UTF-8). -/
def fsUnreadableNode : FS :=
  { kind := fun s => if s = "package.json" then FKind.file else FKind.absent,
    pkgAttempt := .unreadable, pyFiles := [] }

/-- Claim C2 counterexample: `detect_project` is NOT total. When only
`package.json` triggers and reading it raises an OS-level error, the
exception escapes `except (json.JSONDecodeError, KeyError)` and propagates
out of `detect_project`. -/
theorem C2_total_counterexample :
    detect_project fsUnreadableNode = Except.error PyError.osError := rfl

/-- Claim C2 (amended): `detect_project` raises exactly when the node branch
is reached (no pip or Poetry manifest, `package.json` present) and the
`package.json` attempt itself raises — reading the file fails at the OS
level (`OSError`/`UnicodeDecodeError`), the document is valid JSON but not
an object (`data.get` raises `AttributeError`), or the object carries a
truthy non-string `main` (`root / main` raises `TypeError`) — each case
propagating its own exception; a merely malformed (unparseable JSON)
`package.json` is swallowed and detection still returns a node result, and
a directory matching no rule still yields the unknown fallback. -/
theorem C2_total_amended (fs : FS) :
    ((∃ e, detect_project fs = Except.error e) ↔
      (fs.fexists "requirements.txt" = false ∧ fs.fexists "pyproject.toml" = false ∧
       fs.fexists "package.json" = true ∧ fs.pkgAttempt.raises = true)) ∧
    (fs.fexists "requirements.txt" = false → fs.fexists "pyproject.toml" = false →
      fs.fexists "package.json" = true →
      (fs.pkgAttempt = PkgAttempt.unreadable →
        detect_project fs = Except.error PyError.osError) ∧
      (fs.pkgAttempt = PkgAttempt.nonObject →
        detect_project fs = Except.error PyError.attributeError) ∧
      (fs.pkgAttempt = PkgAttempt.object MainField.truthyNonStr →
        detect_project fs = Except.error PyError.typeError)) ∧
    (fs.fexists "requirements.txt" = false → fs.fexists "pyproject.toml" = false →
      fs.fexists "package.json" = true → fs.pkgAttempt = PkgAttempt.malformed →
      detect_project fs = Except.ok (nodeInfo (nodeFallbackEntry fs))) ∧
    (fs.fexists "requirements.txt" = false → fs.fexists "pyproject.toml" = false →
      fs.fexists "package.json" = false → fs.pyFiles = [] →
      detect_project fs = Except.ok unknownInfo) := by
  refine ⟨?_, ?_, ?_, ?_⟩
  · rcases h1 : fs.fexists "requirements.txt" with _ | _
    · rcases h2 : fs.fexists "pyproject.toml" with _ | _
      · rcases h3 : fs.fexists "package.json" with _ | _
        · by_cases h4 : fs.pyFiles = [] <;>
            simp [detect_project, h1, h2, h3, h4]
        · rcases h5 : fs.pkgAttempt with _ | _ | _ | mf
          · simp [detect_project, _find_node_entry, PkgAttempt.raises,
              h1, h2, h3, h5, Except.map]
          · simp [detect_project, _find_node_entry, PkgAttempt.raises,
              h1, h2, h3, h5, Except.map]
          · simp [detect_project, _find_node_entry, PkgAttempt.raises,
              h1, h2, h3, h5, Except.map]
          · rcases mf with _ | m | _ | _
            · simp [detect_project, _find_node_entry, PkgAttempt.raises,
                h1, h2, h3, h5, Except.map]
            · by_cases h6 : (m ≠ "" ∧ fs.fexists m = true) <;>
                simp [detect_project, _find_node_entry, PkgAttempt.raises,
                  h1, h2, h3, h5, h6, Except.map]
            · simp [detect_project, _find_node_entry, PkgAttempt.raises,
                h1, h2, h3, h5, Except.map]
            · simp [detect_project, _find_node_entry, PkgAttempt.raises,
                h1, h2, h3, h5, Except.map]
      · simp [detect_project, h1, h2]
    · simp [detect_project, h1]
  · intro h1 h2 h3
    refine ⟨?_, ?_, ?_⟩ <;> intro h5 <;>
      simp [detect_project, _find_node_entry, h1, h2, h3, h5, Except.map]
  · intro h1 h2 h3 h5
    simp [detect_project, _find_node_entry, h1, h2, h3, h5, Except.map]
  · intro h1 h2 h3 h4
    simp [detect_project, h1, h2, h3, h4]

/-- An empty directory: nothing exists at all. -/
def fsNothing : FS :=
  { kind := fun _ => FKind.absent, pkgAttempt := .object .absent, pyFiles := [] }

/-- Witness for C2 (amended) at the empty directory: the unknown fallback. -/
theorem C2_total_amended_witness :
    detect_project fsNothing = Except.ok unknownInfo :=
  (C2_total_amended fsNothing).2.2.2 rfl rfl rfl rfl

/-! ## Claim theorems: Node entry-point search (C3) -/

/-- A directory whose `package.json` declares `"main": ""`. The empty-string
field is present, and `root / ""` is the root itself, which exists — yet
`if main and ...` is falsy on `""`, so the search falls back. -/
def fsEmptyMain : FS :=
  { kind := fun s =>
      if s = "package.json" then FKind.file
      else if s = "" then FKind.dir
      else FKind.absent,
    pkgAttempt := .object (.str ""), pyFiles := [] }

/-- Claim C3 counterexample: the `main` value is NOT returned whenever the
field is present and its path exists. With `"main": ""` the field is present
and the referenced path (the root itself) exists, but Python truthiness sends
the search to the candidate list, which here yields nothing. -/
theorem C3_empty_main_counterexample :
    fsEmptyMain.pkgAttempt = PkgAttempt.object (MainField.str "") ∧
    fsEmptyMain.fexists "" = true ∧
    _find_node_entry fsEmptyMain = Except.ok none :=
  ⟨rfl, rfl, rfl⟩

/-- Claim C3 (amended): the Node entry-point search returns the `main` value
exactly when the field is present with a non-empty (truthy) string value and
the referenced path exists; on every other non-raising outcome of that
attempt (missing field, empty or otherwise falsy value, referenced file
absent, malformed document) it returns the first existing candidate of the
fixed list, none if no candidate exists, and a dangling `main` path is never
returned. -/
theorem C3_node_entry_amended (fs : FS) :
    (∀ m : String, fs.fexists "package.json" = true →
      fs.pkgAttempt = PkgAttempt.object (MainField.str m) → m ≠ "" →
      fs.fexists m = true → _find_node_entry fs = Except.ok (some m)) ∧
    (fs.fexists "package.json" = true → fs.pkgAttempt = PkgAttempt.malformed →
      _find_node_entry fs = Except.ok (nodeFallbackEntry fs)) ∧
    (fs.fexists "package.json" = true →
      (fs.pkgAttempt = PkgAttempt.object MainField.absent ∨
       fs.pkgAttempt = PkgAttempt.object MainField.falsyNonStr) →
      _find_node_entry fs = Except.ok (nodeFallbackEntry fs)) ∧
    (∀ m : String, fs.fexists "package.json" = true →
      fs.pkgAttempt = PkgAttempt.object (MainField.str m) →
      (m = "" ∨ fs.fexists m = false) →
      _find_node_entry fs = Except.ok (nodeFallbackEntry fs)) ∧
    (fs.fexists "package.json" = false →
      _find_node_entry fs = Except.ok (nodeFallbackEntry fs)) ∧
    ((nodeFallbackEntry fs = none) ↔
      ∀ c ∈ NODE_ENTRY_CANDIDATES, fs.fexists c = false) ∧
    (∀ e, nodeFallbackEntry fs = some e →
      fs.fexists e = true ∧ e ∈ NODE_ENTRY_CANDIDATES) ∧
    (∀ m : String, fs.pkgAttempt = PkgAttempt.object (MainField.str m) →
      fs.fexists m = false → _find_node_entry fs ≠ Except.ok (some m)) := by
  refine ⟨?_, ?_, ?_, ?_, ?_, ?_, ?_, ?_⟩
  · intro m hpkg hattr hne hex
    simp [_find_node_entry, hpkg, hattr, hne, hex]
  · intro hpkg hattr
    simp [_find_node_entry, hpkg, hattr]
  · intro hpkg hattr
    rcases hattr with hattr | hattr <;> simp [_find_node_entry, hpkg, hattr]
  · intro m hpkg hattr hbad
    rcases hbad with rfl | hnex
    · simp [_find_node_entry, hpkg, hattr]
    · simp [_find_node_entry, hpkg, hattr, hnex]
  · intro hpkg
    simp [_find_node_entry, hpkg]
  · constructor
    · intro hnone c hc
      have h2 := List.find?_eq_none.mp hnone c hc
      simpa using h2
    · intro hall
      apply List.find?_eq_none.mpr
      intro c hc
      simp [hall c hc]
  · intro e he
    exact ⟨List.find?_some he, List.mem_of_find?_eq_some he⟩
  · intro m hattr hnex hcon
    have hfb : ∀ e, nodeFallbackEntry fs = some e → fs.fexists e = true :=
      fun e he => List.find?_some he
    rcases hpkg : fs.fexists "package.json" with _ | _
    · rw [_find_node_entry, if_neg (by simp [hpkg])] at hcon
      injection hcon with h2
      rw [hfb m h2] at hnex
      exact Bool.noConfusion hnex
    · have hcond : ¬(m ≠ "" ∧ fs.fexists m = true) := by
        rintro ⟨_, hx⟩
        rw [hnex] at hx
        exact Bool.noConfusion hx
      simp only [_find_node_entry, hpkg, hattr, if_true, if_neg hcond] at hcon
      injection hcon with h2
      rw [hfb m h2] at hnex
      exact Bool.noConfusion hnex

/-- A Node project whose `main` points at an existing `server.js`. -/
def fsNodeMain : FS :=
  { kind := fun s =>
      if s = "package.json" then FKind.file
      else if s = "server.js" then FKind.file
      else FKind.absent,
    pkgAttempt := .object (.str "server.js"), pyFiles := [] }

/-- Witness for C3 (amended): a present, non-empty, existing `main` is
returned as-is. -/
theorem C3_node_entry_amended_witness :
    _find_node_entry fsNodeMain = Except.ok (some "server.js") :=
  (C3_node_entry_amended fsNodeMain).1 "server.js" rfl rfl (by decide) rfl

/-! ## Claim theorems: Python entry-point search (C4) -/

/-- A directory where `app.py` is a directory, not a file. -/
def fsDirApp : FS :=
  { kind := fun s => if s = "app.py" then FKind.dir else FKind.absent,
    pkgAttempt := .object .absent, pyFiles := [] }

/-- Claim C4 counterexample: the search does NOT require candidates to exist
as files. With a directory named `app.py` no candidate exists as a file, yet
`Path.exists()` is true for the directory and the search returns it instead
of none. -/
theorem C4_file_counterexample :
    (∀ c ∈ PYTHON_ENTRY_CANDIDATES, fsDirApp.kind c ≠ FKind.file) ∧
    _find_python_entry fsDirApp = some "app.py" := by decide

/-- Claim C4 (amended): the Python entry-point search returns the first name
of the fixed ordered list whose path at the root exists — as a file or a
directory, since the code tests `Path.exists()` and not file-ness — and none
when no candidate path exists at all. -/
theorem C4_python_entry_amended (fs : FS) :
    _find_python_entry fs =
      (if fs.fexists "app.py" = true then some "app.py"
       else if fs.fexists "main.py" = true then some "main.py"
       else if fs.fexists "server.py" = true then some "server.py"
       else if fs.fexists "run.py" = true then some "run.py"
       else if fs.fexists "manage.py" = true then some "manage.py"
       else if fs.fexists "cli.py" = true then some "cli.py"
       else none) := by
  unfold _find_python_entry PYTHON_ENTRY_CANDIDATES
  rcases h1 : fs.fexists "app.py" <;> rcases h2 : fs.fexists "main.py" <;>
    rcases h3 : fs.fexists "server.py" <;> rcases h4 : fs.fexists "run.py" <;>
    rcases h5 : fs.fexists "manage.py" <;> rcases h6 : fs.fexists "cli.py" <;>
    simp [List.find?, h1, h2, h3, h4, h5, h6]

/-! ## Claim theorems: base image invariant (C8) -/

/-- Claim C8: whenever detection returns (rather than raises), the base image
is `None` exactly for the unknown variant; the python, poetry and
fallback-python variants pin `python:3.11-slim` and the node variant pins
`node:18-slim`. -/
theorem C8_base_image (fs : FS) (info : ProjectInfo)
    (h : detect_project fs = Except.ok info) :
    (info.base_image = none ↔ info.project_type = ProjectType.unknown) ∧
    (info.project_type = ProjectType.python →
      info.base_image = some "python:3.11-slim") ∧
    (info.project_type = ProjectType.poetry →
      info.base_image = some "python:3.11-slim") ∧
    (info.project_type = ProjectType.node →
      info.base_image = some "node:18-slim") := by
  rcases h1 : fs.fexists "requirements.txt" with _ | _
  · rcases h2 : fs.fexists "pyproject.toml" with _ | _
    · rcases h3 : fs.fexists "package.json" with _ | _
      · by_cases h4 : fs.pyFiles = []
        · rw [detect_project] at h
          simp [h1, h2, h3, h4] at h
          subst h
          simp [unknownInfo]
        · rw [detect_project] at h
          simp [h1, h2, h3, h4] at h
          rw [← h]
          simp [fallbackInfo]
      · rcases hf : _find_node_entry fs with e | v
        · rw [detect_project] at h
          simp [h1, h2, h3, hf, Except.map] at h
        · rw [detect_project] at h
          simp [h1, h2, h3, hf, Except.map] at h
          rw [← h]
          simp [nodeInfo]
    · rw [detect_project] at h
      simp [h1, h2] at h
      rw [← h]
      simp [poetryInfo]
  · rw [detect_project] at h
    simp [h1] at h
    rw [← h]
    simp [pipInfo]

/-- Witness for C8 at the empty directory, whose detection result is the
unknown variant. -/
theorem C8_base_image_witness :
    (unknownInfo.base_image = none ↔
      unknownInfo.project_type = ProjectType.unknown) ∧
    (unknownInfo.project_type = ProjectType.python →
      unknownInfo.base_image = some "python:3.11-slim") ∧
    (unknownInfo.project_type = ProjectType.poetry →
      unknownInfo.base_image = some "python:3.11-slim") ∧
    (unknownInfo.project_type = ProjectType.node →
      unknownInfo.base_image = some "node:18-slim") :=
  C8_base_image fsNothing unknownInfo rfl

end DevReplicator
